import Mathlib

/-!
Shallow embedding of the codiri dose-model core, translated from the
repository sources, together with theorems settling the specification
claims about it.

Conventions used throughout:
* Python floats are modelled as exact rationals (`ℚ`) where the code only
  performs field arithmetic and comparisons, and as reals (`ℝ`) where the
  code calls transcendental functions (`math.exp`, `math.pow` with real
  exponent, `math.sqrt`).
* Fallible code (`raise`) is modelled with `Except`.
* Geometry primitives (shapely polygon containment, nearest-point
  distance, buffer/cell intersection area) are external collaborators of
  the repository; they enter the embedding as oracle fields of the
  `Basin` / `Segment` structures, exactly at the call sites where the
  source consumes their results.
-/

/-! ## src/src/model/common.py -/

/-- Pasquill-Gifford atmospheric stability classes, from
`pasquill_gifford_classes = ("A", "B", "C", "D", "E", "F")`. -/
inductive PGClass where
  | A | B | C | D | E | F
deriving DecidableEq, Repr

/-- The tuple `pasquill_gifford_classes`, in source order. -/
def pasquill_gifford_classes : List PGClass :=
  [PGClass.A, PGClass.B, PGClass.C, PGClass.D, PGClass.E, PGClass.F]

/-- Python `max` over a list (the argument is never empty at the call
sites in the source; `0` stands for the unreachable empty case). -/
def pymax : List ℚ → ℚ
  | [] => 0
  | x :: xs => xs.foldl max x

/-! ## src/src/model/formulas.py -/

/-- Error kinds raised by the formula library (the source raises
`ValueError` / `NotImplementedError` with distinguishing messages). -/
inductive FormulaError where
  | unknownNuclide
  | invalidPeriod
  | notImplemented
deriving DecidableEq, Repr

/-- `effective_dose` (formulas.py lines 26-41): per stability class, sum
the per-nuclide doses, then take the maximum over the classes.  A
per-nuclide dict mapping every class to a dose is modelled as a function
`PGClass → ℚ`. -/
def effective_dose (nuclide_aclass_doses : List (PGClass → ℚ)) : ℚ :=
  pymax (pasquill_gifford_classes.map
    (fun aclass => (nuclide_aclass_doses.map (fun doses => doses aclass)).sum))

/-- `total_effective_dose_for_period` (formulas.py lines 73-107):
unknown-nuclide check, then period check, then IRG short-circuit, then
the one-year sum, else not-implemented. -/
def total_effective_dose_for_period (years : ℤ) (nuclide : String)
    (cloud_ed inh_ed surf_ed food_ed : ℚ)
    (nuclide_groups : List (String × String)) : Except FormulaError ℚ :=
  match nuclide_groups.lookup nuclide with
  | none => Except.error FormulaError.unknownNuclide
  | some grp =>
    if years ≤ 0 then Except.error FormulaError.invalidPeriod
    else if grp = "IRG" then Except.ok cloud_ed
    else if years = 1 then Except.ok (cloud_ed + inh_ed + surf_ed + food_ed)
    else Except.error FormulaError.notImplemented

/-- `residence_time_coeff` (formulas.py lines 149-166). -/
noncomputable def residence_time_coeff (dose_rate_decay_coeff
    radioactive_decay_coeff residence_time : ℝ) : ℝ :=
  let decay_coeff := dose_rate_decay_coeff + radioactive_decay_coeff
  (1 - Real.exp (-decay_coeff * residence_time)) / decay_coeff

/-- `dispersion_coeff_y` (formulas.py lines 643-669): piecewise power
law in the distance, raising `ValueError` outside `[0, 50000)`.  Real
powers model `math.pow` / `math.sqrt`. -/
noncomputable def dispersion_coeff_y (p_y q_y distance : ℝ) :
    Except String ℝ :=
  if distance < 0 then
    Except.error "distance could not be negative"
  else if distance < 10000 then
    Except.ok (p_y * distance ^ q_y)
  else if distance < 50000 then
    Except.ok (p_y * (10000 : ℝ) ^ (q_y - 0.5) * Real.sqrt distance)
  else
    Except.error "distance could not be larger than 50000 m"

/-- Index of the last occurrence of the maximum of a list, i.e. the
value of `np.where(doses == np.amax(doses))[0][-1]` in
`food_max_distance`. -/
def argmax_last : List ℚ → ℕ
  | [] => 0
  | [_] => 0
  | x :: y :: ys =>
    if x > pymax (y :: ys) then 0 else argmax_last (y :: ys) + 1

/-- The `doses` array filled by the loop of `food_max_distance`: per
distance, the Python max over the stability classes of the per-class
nuclide-dose sum. -/
def per_distance_doses (doses_matrix : List (List (List ℚ))) : List ℚ :=
  doses_matrix.map (fun row => pymax (row.map (fun per_aclass => per_aclass.sum)))

/-- `food_max_distance` (formulas.py lines 247-292): shape checks, then
the per-distance class-maximum of the nuclide sums, the rightmost argmax
over distances, and the clip from below by `minimal_distance`.  The 3-D
numpy array (distance x class x nuclide) is a list of rows, one row per
distance, each row a list of per-class nuclide-dose lists. -/
def food_max_distance (distances : List ℚ)
    (doses_matrix : List (List (List ℚ)))
    (minimal_distance : ℚ) : Except String ℚ :=
  if doses_matrix.length ≠ distances.length then
    Except.error "first matrix band should correspond to given distances set"
  else if doses_matrix.any
      (fun row => row.length ≠ pasquill_gifford_classes.length) then
    Except.error "second matrix band should correspond to atmospheric classes"
  else
    let doses := per_distance_doses doses_matrix
    let x_max := distances.getD (argmax_last doses) 0
    Except.ok (if x_max < minimal_distance then minimal_distance else x_max)

/-! ## src/src/activity.py -/

/-- `np.iinfo(np.uint16).max`. -/
def max_raster_code : ℕ := 65535

/-- Storing a Python float into a `uint16` numpy cell (`astype(uint16)`
or element assignment): truncation toward zero followed by the 16-bit
wrap of the C cast.  All values stored by the source are nonnegative. -/
def to_uint16 (q : ℚ) : ℕ := (⌊q⌋).toNat % 65536

/-- One shoreline segment of a basin, as consumed by
`ActivityMap.add_basin`.  The shapely calls on it are external geometry
and enter as oracles: `area i j` is
`shoreline_poly.intersection(cell_poly).area` for the raster cell at
indices `(i, j)` (the buffer of half-width `shoreline_width / 2` and the
affine cell polygon are folded into the oracle), and `dist p` is the
`ops.nearest_points` distance from point `p` to the segment. -/
structure Segment where
  area : ℕ → ℕ → ℚ
  dist : ℚ × ℚ → ℚ

/-- A basin as consumed by `ActivityMap.add_basin`:
`contains p` is shapely `basin.body.contains(Point(p))` (strict
interior containment, external geometry). -/
structure ABasin where
  contains : ℚ × ℚ → Bool
  shoreline : List Segment

/-- A measurement: its (reprojected) coordinate and
`measurement.activity.surface_1cm`. -/
structure AMeasurement where
  coo : ℚ × ℚ
  surface_1cm : ℚ

/-- The mutable state of an `ActivityMap`: configuration, the
`raster_factor` (`None` until the first non-zero contribution) and the
`uint16` raster, indexed as `data[i][j]` exactly as the painting loop
indexes `data[i, j]`. -/
structure ActivityMap where
  measurement_proximity : ℚ
  contamination_depth : ℚ
  width : ℕ
  height : ℕ
  raster_factor : Option ℚ
  data : List (List ℕ)
deriving DecidableEq, Repr

/-- Errors of `ActivityMap.add_basin`. -/
inductive AMError where
  | invalidMeasurementLocation
  | exceedingMeasurementProximity
deriving DecidableEq, Repr

/-- `__check_measurment_location`: raise if the measurement point lies
strictly inside the basin body. -/
def check_measurement_location (basin : ABasin) (m : AMeasurement) :
    Except AMError Unit :=
  if basin.contains m.coo then
    Except.error AMError.invalidMeasurementLocation
  else Except.ok ()

/-- `__check_measurment_proximity`: `proximate_enough` is the
disjunction over shoreline segments of `distance <= proximity`; raise
if it is false. -/
def check_measurement_proximity (proximity : ℚ) (basin : ABasin)
    (m : AMeasurement) : Except AMError Unit :=
  if basin.shoreline.any (fun seg => seg.dist m.coo ≤ proximity) then
    Except.ok ()
  else Except.error AMError.exceedingMeasurementProximity

/-- `__check_measurments`: for each measurement in order, the location
check then the proximity check; the first failure is raised. -/
def check_measurements (proximity : ℚ) (basin : ABasin) :
    List AMeasurement → Except AMError Unit
  | [] => Except.ok ()
  | m :: rest =>
    match check_measurement_location basin m with
    | Except.error e => Except.error e
    | Except.ok () =>
      match check_measurement_proximity proximity basin m with
      | Except.error e => Except.error e
      | Except.ok () => check_measurements proximity basin rest

/-- `__calculate_average_surface_activity`: sum of `surface_1cm`,
times `contamination_depth`, divided by the number of measurements. -/
def average_surface_activity (contamination_depth : ℚ)
    (measurements : List AMeasurement) : ℚ :=
  (measurements.map (fun m => m.surface_1cm)).sum
    * contamination_depth / measurements.length

/-- `__make_raster_factor`: `max_raster_code / (2 * activity)`. -/
def make_raster_factor (activity : ℚ) : ℚ :=
  (max_raster_code : ℚ) / (2 * activity)

/-- `__update_raster_factor`: recompute the factor when it is unset or
when the incoming contribution would exceed the `uint16` range. -/
def update_raster_factor (raster_factor : Option ℚ) (activity : ℚ) : ℚ :=
  match raster_factor with
  | none => make_raster_factor activity
  | some f =>
    if f * activity > (max_raster_code : ℚ) then make_raster_factor activity
    else f

/-- Read `data[i][j]` (always in range at the call sites). -/
def get_cell (data : List (List ℕ)) (i j : ℕ) : ℕ :=
  (data.getD i []).getD j 0

/-- Write `data[i][j]`. -/
def set_cell (data : List (List ℕ)) (i j : ℕ) (v : ℕ) :
    List (List ℕ) :=
  data.set i ((data.getD i []).set j v)

/-- The body of the painting loop for one non-zero contribution
`activity` to cell `(i, j)` (activity.py lines 98-108): update the
raster factor, on a factor change rescale every stored code by
`new_factor / old_factor` truncated to `uint16`, then add the
contribution code `raster_factor * activity` to the cell. -/
def apply_contribution (amap : ActivityMap) (i j : ℕ) (activity : ℚ) :
    ActivityMap :=
  let raster_factor := update_raster_factor amap.raster_factor activity
  match amap.raster_factor with
  | none =>
    { amap with
      raster_factor := some raster_factor,
      data := set_cell amap.data i j
        (to_uint16 ((get_cell amap.data i j : ℚ)
          + raster_factor * activity)) }
  | some f =>
    let data :=
      if raster_factor ≠ f then
        amap.data.map (fun row =>
          row.map (fun (code : ℕ) =>
            to_uint16 ((code : ℚ) / f * raster_factor)))
      else amap.data
    { amap with
      raster_factor := some raster_factor,
      data := set_cell data i j
        (to_uint16 ((get_cell data i j : ℚ) + raster_factor * activity)) }

/-- The cell loop of `add_basin` for one buffered shoreline segment:
for every `(i, j)`, skip intersection area `0`, otherwise apply the
contribution `surface_activity * intersection`. -/
def paint_segment (amap : ActivityMap) (surface_activity : ℚ)
    (seg : Segment) : ActivityMap :=
  (List.range amap.width).foldl (fun acc i =>
    (List.range acc.height).foldl (fun acc2 j =>
      let intersection := seg.area i j
      if intersection = 0 then acc2
      else apply_contribution acc2 i j (surface_activity * intersection))
      acc) amap

/-- `ActivityMap.add_basin` (activity.py lines 69-110): empty
measurement list is a no-op; measurements are validated; zero average
surface activity is a no-op; otherwise every shoreline segment is
painted. -/
def add_basin (amap : ActivityMap) (basin : ABasin)
    (measurements : List AMeasurement) : Except AMError ActivityMap :=
  if measurements.isEmpty then Except.ok amap
  else
    match check_measurements amap.measurement_proximity basin measurements with
    | Except.error e => Except.error e
    | Except.ok () =>
      let surface_activity :=
        average_surface_activity amap.contamination_depth measurements
      if surface_activity = 0 then Except.ok amap
      else
        Except.ok (basin.shoreline.foldl
          (fun acc seg => paint_segment acc surface_activity seg) amap)

/-! ## src/src/basins.py -/

/-- Shapely `geom_type` values that the `Basin` constructor inspects on
`body_contour.intersection(map_contour)`. -/
inductive GeomType where
  | point | multiPoint | lineString | multiLineString | other
deriving DecidableEq, Repr

/-- Oracle results of the shapely predicates the `Basin` constructor
calls on the candidate contour against the map contour (external
geometry): `Polygon(map_contour).contains(body)`,
`body_contour.equals(map_contour)`, `body_contour.disjoint(map_contour)`
and the `geom_type` of `body_contour.intersection(map_contour)`. -/
structure ContourGeom where
  map_contains_body : Bool
  body_equals_map : Bool
  body_disjoint_map : Bool
  intersection_type : GeomType
deriving DecidableEq, Repr

/-- The shoreline a `Basin` ends up with: the whole body contour as a
closed `LinearRing`, or the set difference
`body_contour.difference(map_contour)` (one open line string or several
disjoint open segments). -/
inductive ShorelineResult where
  | closedRing
  | boundaryDifference
deriving DecidableEq, Repr

/-- `Basin.__init__` (basins.py lines 23-45) for a candidate polygon
checked against a map contour: raise when the map does not contain the
body or the contours coincide; keep the closed ring when the body
contour is disjoint from the map contour or meets it in isolated
points only; otherwise take the boundary difference. -/
def basin_shoreline (g : ContourGeom) : Except String ShorelineResult :=
  if !g.map_contains_body || g.body_equals_map then
    Except.error "map does not contain basin"
  else if g.body_disjoint_map
      || (g.intersection_type = GeomType.point
          || g.intersection_type = GeomType.multiPoint) then
    Except.ok ShorelineResult.closedRing
  else
    Except.ok ShorelineResult.boundaryDifference

/-! ## src/src/model/common.py + src/src/model/input.py -/

/-- The slots of the `Input` bundle (its `ValidatingFixedMap`), each
`none` until set.  `specific_activities` is the nested `ValidatingMap`
from nuclide name to specific activity, initialized empty. -/
structure ModelInput where
  distance : Option ℚ
  square_side : Option ℚ
  specific_activities : List (String × ℚ)
  precipitation_rate : Option ℚ
  extreme_windspeeds : Option (List (String × ℚ))
  age : Option ℤ
  terrain_type : Option String
  blowout_time : Option ℤ
  buffer_area_radius : Option ℚ
  adults_annual_food_intake : Option (List (String × ℚ))

/-- `ValidatingMap.__setitem__` (common.py lines 118-134): run the
validator on the value; raise `ValueError` with the error message if it
fails, store the value otherwise. -/
def validating_set {α : Type} (validator : α → Bool) (err_msg : String)
    (value : α) (store : α → ModelInput) : Except String ModelInput :=
  if !validator value then Except.error err_msg
  else Except.ok (store value)

/-- `Input.distance` setter: validator `x >= 0`. -/
def set_distance (input : ModelInput) (value : ℚ) :
    Except String ModelInput :=
  validating_set (fun x => x ≥ 0) "invalid distance" value
    (fun v => { input with distance := some v })

/-- `Input.square_side` setter: validator `x >= 0`. -/
def set_square_side (input : ModelInput) (value : ℚ) :
    Except String ModelInput :=
  validating_set (fun x => x ≥ 0) "invalid square side" value
    (fun v => { input with square_side := some v })

/-- `Input.add_specific_activity`: insert into the nested
`ValidatingMap` with validator `x > 0`. -/
def add_specific_activity (input : ModelInput) (nuclide : String)
    (specific_activity : ℚ) : Except String ModelInput :=
  validating_set (fun x => x > 0) "invalid specific_activity"
    specific_activity
    (fun v => { input with
      specific_activities := (nuclide, v) :: input.specific_activities })

/-- `Input.precipitation_rate` setter: validator `x >= 0`. -/
def set_precipitation_rate (input : ModelInput) (value : ℚ) :
    Except String ModelInput :=
  validating_set (fun x => x ≥ 0) "invalid precipitation rate" value
    (fun v => { input with precipitation_rate := some v })

/-- The string names of the stability classes, as the windspeed
validator sees them. -/
def pg_class_names : List String := ["A", "B", "C", "D", "E", "F"]

/-- `Input.extreme_windspeeds` setter: validator
`sorted(x.keys()) == sorted(pasquill_gifford_classes)`. -/
def set_extreme_windspeeds (input : ModelInput)
    (values : List (String × ℚ)) : Except String ModelInput :=
  validating_set
    (fun x => (x.map Prod.fst).insertionSort (fun a b => a ≤ b)
      = pg_class_names.insertionSort (fun a b => a ≤ b))
    "given wind speeds list does not provide necessary classes" values
    (fun v => { input with extreme_windspeeds := some v })

/-- `Input.age` setter: validator `x >= 0`. -/
def set_age (input : ModelInput) (value : ℤ) :
    Except String ModelInput :=
  validating_set (fun x => x ≥ 0) "invalid age" value
    (fun v => { input with age := some v })

/-- `Input.terrain_type` setter: validator membership in the four
terrain names. -/
def set_terrain_type (input : ModelInput) (value : String) :
    Except String ModelInput :=
  validating_set
    (fun x => ["greenland", "agricultural", "forest", "settlement"].contains x)
    "unknown terrain type" value
    (fun v => { input with terrain_type := some v })

/-- `Input.blowout_time` setter: validator `x > 0`. -/
def set_blowout_time (input : ModelInput) (value : ℤ) :
    Except String ModelInput :=
  validating_set (fun x => x > 0) "invalid wind operation" value
    (fun v => { input with blowout_time := some v })

/-- `Input.buffer_area_radius` setter: validator `x >= 0`. -/
def set_buffer_area_radius (input : ModelInput) (value : ℚ) :
    Except String ModelInput :=
  validating_set (fun x => x ≥ 0) "invalid buffer area radius" value
    (fun v => { input with buffer_area_radius := some v })

/-- The food categories of the `adults_annual_food_intake` validator. -/
def food_category_names : List String :=
  ["meat", "milk", "wheat", "cucumbers", "cabbage", "potato"]

/-- `Input.adults_annual_food_intake` setter: validator
`sorted(x.keys()) == categories` with `categories` the sorted food
category names. -/
def set_adults_annual_food_intake (input : ModelInput)
    (value : List (String × ℚ)) : Except String ModelInput :=
  validating_set
    (fun x => (x.map Prod.fst).insertionSort (fun a b => a ≤ b)
      = food_category_names.insertionSort (fun a b => a ≤ b))
    "invalid food categories" value
    (fun v => { input with adults_annual_food_intake := some v })

/-- `Input.initialized`: every slot set and the specific-activity map
non-empty. -/
def input_initialized (input : ModelInput) : Bool :=
  input.distance.isSome && input.square_side.isSome
    && input.precipitation_rate.isSome && input.extreme_windspeeds.isSome
    && input.age.isSome && input.terrain_type.isSome
    && input.blowout_time.isSome && input.buffer_area_radius.isSome
    && input.adults_annual_food_intake.isSome
    && !input.specific_activities.isEmpty

/-- The state an `Input` field run keeps after a setter call: the new
state on success, the previous state when the setter raised. -/
def keep_on_error (input : ModelInput) (r : Except String ModelInput) :
    ModelInput :=
  match r with
  | Except.ok input2 => input2
  | Except.error _ => input

/-! ## Claim C4 -/

/-- C4: `total_effective_dose_for_period` raises unknown-nuclide when
the nuclide is absent from the groups mapping; otherwise raises
invalid-period when `years < 1`; otherwise returns `E_cloud` alone for
an IRG nuclide, and for a non-IRG nuclide returns
`E_cloud + E_inh + E_surf + E_food` when `years = 1` and raises
not-implemented when `years > 1`. -/
theorem total_effective_dose_for_period_spec (years : ℤ) (nuclide : String)
    (cloud_ed inh_ed surf_ed food_ed : ℚ)
    (groups : List (String × String)) :
    (groups.lookup nuclide = none →
      total_effective_dose_for_period years nuclide cloud_ed inh_ed
        surf_ed food_ed groups = Except.error FormulaError.unknownNuclide)
    ∧ (∀ grp, groups.lookup nuclide = some grp → years < 1 →
      total_effective_dose_for_period years nuclide cloud_ed inh_ed
        surf_ed food_ed groups = Except.error FormulaError.invalidPeriod)
    ∧ (groups.lookup nuclide = some "IRG" → 1 ≤ years →
      total_effective_dose_for_period years nuclide cloud_ed inh_ed
        surf_ed food_ed groups = Except.ok cloud_ed)
    ∧ (∀ grp, groups.lookup nuclide = some grp → grp ≠ "IRG" → years = 1 →
      total_effective_dose_for_period years nuclide cloud_ed inh_ed
        surf_ed food_ed groups
        = Except.ok (cloud_ed + inh_ed + surf_ed + food_ed))
    ∧ (∀ grp, groups.lookup nuclide = some grp → grp ≠ "IRG" → 1 < years →
      total_effective_dose_for_period years nuclide cloud_ed inh_ed
        surf_ed food_ed groups = Except.error FormulaError.notImplemented) := by
  refine ⟨?_, ?_, ?_, ?_, ?_⟩
  · intro h
    simp [total_effective_dose_for_period, h]
  · intro grp h hy
    simp [total_effective_dose_for_period, h, show years ≤ 0 by omega]
  · intro h hy
    simp [total_effective_dose_for_period, h, show ¬ years ≤ 0 by omega]
  · intro grp h hg hy
    simp [total_effective_dose_for_period, h, hg, hy, show ¬ (1 : ℤ) ≤ 0 by omega]
  · intro grp h hg hy
    simp [total_effective_dose_for_period, h, hg, show ¬ years ≤ 0 by omega,
      show years ≠ 1 by omega]

/-- C4 witness: the five behaviours at concrete inputs. -/
theorem total_effective_dose_for_period_spec_witness :
    total_effective_dose_for_period 1 "Sr-90" 1 2 3 4
      [("Cs-137", "aerosol"), ("Xe-133", "IRG")]
      = Except.error FormulaError.unknownNuclide
    ∧ total_effective_dose_for_period 0 "Cs-137" 1 2 3 4
      [("Cs-137", "aerosol"), ("Xe-133", "IRG")]
      = Except.error FormulaError.invalidPeriod
    ∧ total_effective_dose_for_period 2 "Xe-133" 1 2 3 4
      [("Cs-137", "aerosol"), ("Xe-133", "IRG")]
      = Except.ok 1
    ∧ total_effective_dose_for_period 1 "Cs-137" 1 2 3 4
      [("Cs-137", "aerosol"), ("Xe-133", "IRG")]
      = Except.ok (1 + 2 + 3 + 4)
    ∧ total_effective_dose_for_period 2 "Cs-137" 1 2 3 4
      [("Cs-137", "aerosol"), ("Xe-133", "IRG")]
      = Except.error FormulaError.notImplemented := by
  refine ⟨?_, ?_, ?_, ?_, ?_⟩
  · exact (total_effective_dose_for_period_spec 1 "Sr-90" 1 2 3 4 _).1
      (by decide)
  · exact (total_effective_dose_for_period_spec 0 "Cs-137" 1 2 3 4 _).2.1
      "aerosol" (by decide) (by decide)
  · exact (total_effective_dose_for_period_spec 2 "Xe-133" 1 2 3 4 _).2.2.1
      (by decide) (by decide)
  · exact (total_effective_dose_for_period_spec 1 "Cs-137" 1 2 3 4 _).2.2.2.1
      "aerosol" (by decide) (by decide) rfl
  · exact (total_effective_dose_for_period_spec 2 "Cs-137" 1 2 3 4 _).2.2.2.2
      "aerosol" (by decide) (by decide) (by decide)

/-! ## Claim C9 -/

/-- C9: constructing a `Basin` against the map contour fails with
out-of-map exactly when the map polygon does not contain the body or
the body contour equals the map contour; otherwise the shoreline is the
closed body ring exactly when the body contour is disjoint from the map
contour or meets it only in isolated points, and the boundary
difference in every other case. -/
theorem basin_shoreline_spec (g : ContourGeom) :
    (basin_shoreline g = Except.error "map does not contain basin"
      ↔ (g.map_contains_body = false ∨ g.body_equals_map = true))
    ∧ (basin_shoreline g = Except.ok ShorelineResult.closedRing
      ↔ ((g.map_contains_body = true ∧ g.body_equals_map = false)
        ∧ (g.body_disjoint_map = true
          ∨ g.intersection_type = GeomType.point
          ∨ g.intersection_type = GeomType.multiPoint)))
    ∧ (basin_shoreline g = Except.ok ShorelineResult.boundaryDifference
      ↔ ((g.map_contains_body = true ∧ g.body_equals_map = false)
        ∧ ¬(g.body_disjoint_map = true
          ∨ g.intersection_type = GeomType.point
          ∨ g.intersection_type = GeomType.multiPoint))) := by
  rcases g with ⟨mc, eq, dj, it⟩
  cases mc <;> cases eq <;> cases dj <;> cases it <;>
    simp [basin_shoreline]

/-! ## Claim C10 -/

/-- C10: every `Input` field setter validates before storing; a value
rejected by the validator of the field raises `ValueError`, the field keeps
its previous value and `initialized()` is unaffected. -/
theorem input_setter_rejects_invalid (input : ModelInput) :
    (∀ v : ℚ, ¬ v ≥ 0 →
      set_distance input v = Except.error "invalid distance"
      ∧ keep_on_error input (set_distance input v) = input)
    ∧ (∀ v : ℚ, ¬ v ≥ 0 →
      set_square_side input v = Except.error "invalid square side"
      ∧ keep_on_error input (set_square_side input v) = input)
    ∧ (∀ v : ℚ, ¬ v ≥ 0 →
      set_precipitation_rate input v
        = Except.error "invalid precipitation rate"
      ∧ keep_on_error input (set_precipitation_rate input v) = input)
    ∧ (∀ v : List (String × ℚ),
      ¬ (v.map Prod.fst).insertionSort (fun a b => a ≤ b)
          = pg_class_names.insertionSort (fun a b => a ≤ b) →
      set_extreme_windspeeds input v
        = Except.error "given wind speeds list does not provide necessary classes"
      ∧ keep_on_error input (set_extreme_windspeeds input v) = input)
    ∧ (∀ v : ℤ, ¬ v ≥ 0 →
      set_age input v = Except.error "invalid age"
      ∧ keep_on_error input (set_age input v) = input)
    ∧ (∀ v : String,
      ¬ ["greenland", "agricultural", "forest", "settlement"].contains v
          = true →
      set_terrain_type input v = Except.error "unknown terrain type"
      ∧ keep_on_error input (set_terrain_type input v) = input)
    ∧ (∀ v : ℤ, ¬ v > 0 →
      set_blowout_time input v = Except.error "invalid wind operation"
      ∧ keep_on_error input (set_blowout_time input v) = input)
    ∧ (∀ v : ℚ, ¬ v ≥ 0 →
      set_buffer_area_radius input v
        = Except.error "invalid buffer area radius"
      ∧ keep_on_error input (set_buffer_area_radius input v) = input)
    ∧ (∀ v : List (String × ℚ),
      ¬ (v.map Prod.fst).insertionSort (fun a b => a ≤ b)
          = food_category_names.insertionSort (fun a b => a ≤ b) →
      set_adults_annual_food_intake input v
        = Except.error "invalid food categories"
      ∧ keep_on_error input (set_adults_annual_food_intake input v) = input)
    ∧ (∀ (nuclide : String) (v : ℚ), ¬ v > 0 →
      add_specific_activity input nuclide v
        = Except.error "invalid specific_activity"
      ∧ keep_on_error input (add_specific_activity input nuclide v)
          = input) := by
  refine ⟨?_, ?_, ?_, ?_, ?_, ?_, ?_, ?_, ?_, ?_⟩
  · intro v hv
    have h1 : set_distance input v = Except.error "invalid distance" := by
      simp only [set_distance, validating_set, decide_eq_false hv]
      rfl
    exact ⟨h1, by rw [h1]; rfl⟩
  · intro v hv
    have h1 : set_square_side input v
        = Except.error "invalid square side" := by
      simp only [set_square_side, validating_set, decide_eq_false hv]
      rfl
    exact ⟨h1, by rw [h1]; rfl⟩
  · intro v hv
    have h1 : set_precipitation_rate input v
        = Except.error "invalid precipitation rate" := by
      simp only [set_precipitation_rate, validating_set, decide_eq_false hv]
      rfl
    exact ⟨h1, by rw [h1]; rfl⟩
  · intro v hv
    have h1 : set_extreme_windspeeds input v
        = Except.error "given wind speeds list does not provide necessary classes" := by
      simp only [set_extreme_windspeeds, validating_set, decide_eq_false hv]
      rfl
    exact ⟨h1, by rw [h1]; rfl⟩
  · intro v hv
    have h1 : set_age input v = Except.error "invalid age" := by
      simp only [set_age, validating_set, decide_eq_false hv]
      rfl
    exact ⟨h1, by rw [h1]; rfl⟩
  · intro v hv
    have hb : (["greenland", "agricultural", "forest",
        "settlement"].contains v) = false := Bool.eq_false_iff.mpr hv
    have h1 : set_terrain_type input v
        = Except.error "unknown terrain type" := by
      simp only [set_terrain_type, validating_set, hb]
      rfl
    exact ⟨h1, by rw [h1]; rfl⟩
  · intro v hv
    have h1 : set_blowout_time input v
        = Except.error "invalid wind operation" := by
      simp only [set_blowout_time, validating_set, decide_eq_false hv]
      rfl
    exact ⟨h1, by rw [h1]; rfl⟩
  · intro v hv
    have h1 : set_buffer_area_radius input v
        = Except.error "invalid buffer area radius" := by
      simp only [set_buffer_area_radius, validating_set, decide_eq_false hv]
      rfl
    exact ⟨h1, by rw [h1]; rfl⟩
  · intro v hv
    have h1 : set_adults_annual_food_intake input v
        = Except.error "invalid food categories" := by
      simp only [set_adults_annual_food_intake, validating_set,
        decide_eq_false hv]
      rfl
    exact ⟨h1, by rw [h1]; rfl⟩
  · intro nuclide v hv
    have h1 : add_specific_activity input nuclide v
        = Except.error "invalid specific_activity" := by
      simp only [add_specific_activity, validating_set, decide_eq_false hv]
      rfl
    exact ⟨h1, by rw [h1]; rfl⟩

/-- A freshly constructed `Input`: no scalar slot set, no specific
activities. -/
def empty_input : ModelInput :=
  { distance := none, square_side := none, specific_activities := [],
    precipitation_rate := none, extreme_windspeeds := none, age := none,
    terrain_type := none, blowout_time := none, buffer_area_radius := none,
    adults_annual_food_intake := none }

/-- An empty key set never matches the six stability-class names after
sorting. -/
lemma sorted_keys_empty_ne_pg :
    ¬ ((([] : List (String × ℚ)).map Prod.fst).insertionSort
        (fun a b => a ≤ b)
      = pg_class_names.insertionSort (fun a b => a ≤ b)) := by
  intro h
  have hl := congrArg List.length h
  rw [(List.perm_insertionSort _ _).length_eq,
    (List.perm_insertionSort _ _).length_eq] at hl
  simp [pg_class_names] at hl

/-- An empty key set never matches the six food-category names after
sorting. -/
lemma sorted_keys_empty_ne_food :
    ¬ ((([] : List (String × ℚ)).map Prod.fst).insertionSort
        (fun a b => a ≤ b)
      = food_category_names.insertionSort (fun a b => a ≤ b)) := by
  intro h
  have hl := congrArg List.length h
  rw [(List.perm_insertionSort _ _).length_eq,
    (List.perm_insertionSort _ _).length_eq] at hl
  simp [food_category_names] at hl

/-- C10 witness: each setter of a fresh `Input`, fed a concrete value
its validator rejects, raises and leaves the state unchanged. -/
theorem input_setter_rejects_invalid_witness :
    (set_distance empty_input (-1) = Except.error "invalid distance"
      ∧ keep_on_error empty_input (set_distance empty_input (-1))
          = empty_input)
    ∧ (set_square_side empty_input (-1)
          = Except.error "invalid square side"
      ∧ keep_on_error empty_input (set_square_side empty_input (-1))
          = empty_input)
    ∧ (set_precipitation_rate empty_input (-1)
          = Except.error "invalid precipitation rate"
      ∧ keep_on_error empty_input (set_precipitation_rate empty_input (-1))
          = empty_input)
    ∧ (set_extreme_windspeeds empty_input []
          = Except.error "given wind speeds list does not provide necessary classes"
      ∧ keep_on_error empty_input (set_extreme_windspeeds empty_input [])
          = empty_input)
    ∧ (set_age empty_input (-1) = Except.error "invalid age"
      ∧ keep_on_error empty_input (set_age empty_input (-1))
          = empty_input)
    ∧ (set_terrain_type empty_input "ocean"
          = Except.error "unknown terrain type"
      ∧ keep_on_error empty_input (set_terrain_type empty_input "ocean")
          = empty_input)
    ∧ (set_blowout_time empty_input 0
          = Except.error "invalid wind operation"
      ∧ keep_on_error empty_input (set_blowout_time empty_input 0)
          = empty_input)
    ∧ (set_buffer_area_radius empty_input (-1)
          = Except.error "invalid buffer area radius"
      ∧ keep_on_error empty_input (set_buffer_area_radius empty_input (-1))
          = empty_input)
    ∧ (set_adults_annual_food_intake empty_input []
          = Except.error "invalid food categories"
      ∧ keep_on_error empty_input
          (set_adults_annual_food_intake empty_input []) = empty_input)
    ∧ (add_specific_activity empty_input "Cs-137" 0
          = Except.error "invalid specific_activity"
      ∧ keep_on_error empty_input
          (add_specific_activity empty_input "Cs-137" 0) = empty_input) := by
  refine ⟨?_, ?_, ?_, ?_, ?_, ?_, ?_, ?_, ?_, ?_⟩
  · exact (input_setter_rejects_invalid empty_input).1 (-1) (by norm_num)
  · exact (input_setter_rejects_invalid empty_input).2.1 (-1) (by norm_num)
  · exact (input_setter_rejects_invalid empty_input).2.2.1 (-1)
      (by norm_num)
  · exact (input_setter_rejects_invalid empty_input).2.2.2.1 []
      sorted_keys_empty_ne_pg
  · exact (input_setter_rejects_invalid empty_input).2.2.2.2.1 (-1)
      (by norm_num)
  · exact (input_setter_rejects_invalid empty_input).2.2.2.2.2.1 "ocean"
      (by decide)
  · exact (input_setter_rejects_invalid empty_input).2.2.2.2.2.2.1 0
      (by norm_num)
  · exact (input_setter_rejects_invalid empty_input).2.2.2.2.2.2.2.1 (-1)
      (by norm_num)
  · exact (input_setter_rejects_invalid empty_input).2.2.2.2.2.2.2.2.1 []
      sorted_keys_empty_ne_food
  · exact (input_setter_rejects_invalid empty_input).2.2.2.2.2.2.2.2.2
      "Cs-137" 0 (by norm_num)

/-! ## Claim C5 -/

/-- The start value of a max fold never exceeds the fold. -/
lemma le_foldl_max (a : ℚ) (xs : List ℚ) : a ≤ xs.foldl max a := by
  induction xs generalizing a with
  | nil => exact le_refl a
  | cons y ys ih =>
    exact le_trans (le_max_left a y) (ih (max a y))

/-- Every list element is bounded by the max fold. -/
lemma mem_le_foldl_max {x : ℚ} (a : ℚ) {xs : List ℚ} (h : x ∈ xs) :
    x ≤ xs.foldl max a := by
  induction xs generalizing a with
  | nil => cases h
  | cons y ys ih =>
    rcases List.mem_cons.mp h with rfl | hx
    · exact le_trans (le_max_right a x) (le_foldl_max (max a x) ys)
    · exact ih (max a y) hx

/-- The max fold is the start value or one of the elements. -/
lemma foldl_max_mem (a : ℚ) (xs : List ℚ) :
    xs.foldl max a = a ∨ xs.foldl max a ∈ xs := by
  induction xs generalizing a with
  | nil => exact Or.inl rfl
  | cons y ys ih =>
    rcases ih (max a y) with h | h
    · rcases max_choice a y with hm | hm
      · exact Or.inl (by rw [List.foldl_cons, h, hm])
      · exact Or.inr (by rw [List.foldl_cons, h, hm]; exact List.mem_cons_self y ys)
    · exact Or.inr (List.mem_cons_of_mem y h)

/-- The max fold is monotone in the start value and pointwise in the
list. -/
lemma foldl_max_mono {a b : ℚ} {xs ys : List ℚ} (hab : a ≤ b)
    (h : List.Forall₂ (fun x y => x ≤ y) xs ys) :
    xs.foldl max a ≤ ys.foldl max b := by
  induction h generalizing a b with
  | nil => exact hab
  | cons hxy _ ih => exact ih (max_le_max hab hxy)

/-- Every element is bounded by the Python max. -/
lemma le_pymax {x : ℚ} {xs : List ℚ} (h : x ∈ xs) : x ≤ pymax xs := by
  cases xs with
  | nil => cases h
  | cons y ys =>
    rcases List.mem_cons.mp h with rfl | hx
    · exact le_foldl_max x ys
    · exact mem_le_foldl_max y hx

/-- The Python max of a non-empty list is one of its elements. -/
lemma pymax_mem {xs : List ℚ} (h : xs ≠ []) : pymax xs ∈ xs := by
  cases xs with
  | nil => exact absurd rfl h
  | cons y ys =>
    rcases foldl_max_mem y ys with h1 | h1
    · exact List.mem_cons.mpr (Or.inl h1)
    · exact List.mem_cons_of_mem y h1

/-- The Python max is monotone under pointwise list comparison. -/
lemma pymax_mono {xs ys : List ℚ}
    (h : List.Forall₂ (fun x y => x ≤ y) xs ys) : pymax xs ≤ pymax ys := by
  cases h with
  | nil => exact le_refl 0
  | cons hxy htail => exact foldl_max_mono hxy htail

/-- Every stability class occurs in the class tuple. -/
lemma mem_pasquill_gifford_classes (a : PGClass) :
    a ∈ pasquill_gifford_classes := by
  cases a <;> simp [pasquill_gifford_classes]

/-- Pointwise bounds on functions lift to `Forall₂` of maps over a
common list. -/
lemma forall2_map_of_pointwise {α : Type} (f1 f2 : α → ℚ)
    (h : ∀ c, f1 c ≤ f2 c) :
    ∀ cs : List α, List.Forall₂ (fun x y => x ≤ y) (cs.map f1) (cs.map f2)
  | [] => List.Forall₂.nil
  | c :: cs => List.Forall₂.cons (h c) (forall2_map_of_pointwise f1 f2 h cs)

/-- Pointwise-bounded dose dictionaries have pointwise-bounded per-class
sums. -/
lemma sum_le_sum_of_forall2 {l1 l2 : List (PGClass → ℚ)}
    (h : List.Forall₂ (fun d1 d2 => ∀ a, d1 a ≤ d2 a) l1 l2)
    (aclass : PGClass) :
    (l1.map (fun doses => doses aclass)).sum
      ≤ (l2.map (fun doses => doses aclass)).sum := by
  induction h with
  | nil => exact le_refl 0
  | cons hd htail ih =>
    simp only [List.map_cons, List.sum_cons]
    exact add_le_add (hd aclass) ih

/-- The first dose dictionary of the spec scenario
`effective_dose([{A:1,B:2,C:3,D:2,E:1,F:0}, ...]) = 18`. -/
def ed_example_1 : PGClass → ℚ
  | PGClass.A => 1 | PGClass.B => 2 | PGClass.C => 3
  | PGClass.D => 2 | PGClass.E => 1 | PGClass.F => 0

/-- The second dose dictionary of the spec scenario. -/
def ed_example_2 : PGClass → ℚ
  | PGClass.A => 1 | PGClass.B => 4 | PGClass.C => 9
  | PGClass.D => 16 | PGClass.E => 9 | PGClass.F => 4

/-- C5: `effective_dose` is the maximum over the six stability classes
of the per-class sum over nuclides (it attains one of the per-class
sums and bounds each of them), it is monotone non-decreasing in every
entry, and on the spec scenario it returns `18`. -/
theorem effective_dose_spec :
    (∀ (l : List (PGClass → ℚ)) (aclass : PGClass),
      (l.map (fun doses => doses aclass)).sum ≤ effective_dose l)
    ∧ (∀ l : List (PGClass → ℚ), ∃ aclass : PGClass,
      effective_dose l = (l.map (fun doses => doses aclass)).sum)
    ∧ (∀ l1 l2 : List (PGClass → ℚ),
      List.Forall₂ (fun d1 d2 => ∀ a, d1 a ≤ d2 a) l1 l2 →
      effective_dose l1 ≤ effective_dose l2)
    ∧ effective_dose [ed_example_1, ed_example_2] = 18 := by
  refine ⟨?_, ?_, ?_, ?_⟩
  · intro l aclass
    exact le_pymax (List.mem_map_of_mem _ (mem_pasquill_gifford_classes aclass))
  · intro l
    have h : pymax (pasquill_gifford_classes.map
        (fun aclass => (l.map (fun doses => doses aclass)).sum))
        ∈ pasquill_gifford_classes.map
          (fun aclass => (l.map (fun doses => doses aclass)).sum) :=
      pymax_mem (by simp [pasquill_gifford_classes])
    rcases List.mem_map.mp h with ⟨aclass, _, heq⟩
    exact ⟨aclass, heq.symm⟩
  · intro l1 l2 h
    exact pymax_mono (forall2_map_of_pointwise _ _
      (sum_le_sum_of_forall2 h) pasquill_gifford_classes)
  · norm_num [effective_dose, pasquill_gifford_classes, pymax,
      ed_example_1, ed_example_2, max_def]

/-- C5 witness: the bound and the monotonicity at concrete dose
dictionaries. -/
theorem effective_dose_spec_witness :
    (([ed_example_1, ed_example_2].map
        (fun doses => doses PGClass.D)).sum
      ≤ effective_dose [ed_example_1, ed_example_2])
    ∧ effective_dose [ed_example_1] ≤ effective_dose [ed_example_2] := by
  constructor
  · exact effective_dose_spec.1 [ed_example_1, ed_example_2] PGClass.D
  · exact effective_dose_spec.2.2.1 [ed_example_1] [ed_example_2]
      (List.Forall₂.cons
        (by intro a; cases a <;> norm_num [ed_example_1, ed_example_2])
        List.Forall₂.nil)

/-! ## Claim C7 -/

/-- C7: `residence_time_coeff` computes
`(1 - exp(-(l_d + l_r) * T)) / (l_d + l_r)`; whenever `l_d + l_r > 0`
it vanishes at `T = 0`, is strictly increasing in the residence time,
and tends to `1 / (l_d + l_r)` as the residence time grows without
bound. -/
theorem residence_time_coeff_spec (l_d l_r : ℝ) (h : 0 < l_d + l_r) :
    (∀ T : ℝ, residence_time_coeff l_d l_r T
      = (1 - Real.exp (-(l_d + l_r) * T)) / (l_d + l_r))
    ∧ residence_time_coeff l_d l_r 0 = 0
    ∧ StrictMono (fun T => residence_time_coeff l_d l_r T)
    ∧ Filter.Tendsto (fun T => residence_time_coeff l_d l_r T)
        Filter.atTop (nhds (1 / (l_d + l_r))) := by
  refine ⟨fun T => rfl, ?_, ?_, ?_⟩
  · simp [residence_time_coeff]
  · intro T1 T2 hT
    have hexp : Real.exp (-(l_d + l_r) * T2) < Real.exp (-(l_d + l_r) * T1) :=
      Real.exp_lt_exp.mpr (by nlinarith)
    have hsub : 1 - Real.exp (-(l_d + l_r) * T1)
        < 1 - Real.exp (-(l_d + l_r) * T2) := by linarith
    exact div_lt_div_of_pos_right hsub h
  · have h1 : Filter.Tendsto (fun T : ℝ => (l_d + l_r) * T)
        Filter.atTop Filter.atTop :=
      Filter.Tendsto.const_mul_atTop h Filter.tendsto_id
    have h2 : Filter.Tendsto (fun T : ℝ => -((l_d + l_r) * T))
        Filter.atTop Filter.atBot :=
      Filter.tendsto_neg_atTop_atBot.comp h1
    have h3 : Filter.Tendsto (fun T : ℝ => Real.exp (-((l_d + l_r) * T)))
        Filter.atTop (nhds 0) := Real.tendsto_exp_atBot.comp h2
    have h4 : Filter.Tendsto
        (fun T : ℝ => (1 - Real.exp (-((l_d + l_r) * T))) / (l_d + l_r))
        Filter.atTop (nhds ((1 - 0) / (l_d + l_r))) :=
      (Filter.Tendsto.sub tendsto_const_nhds h3).div_const (l_d + l_r)
    have heq : (fun T : ℝ => residence_time_coeff l_d l_r T)
        = fun T : ℝ =>
          (1 - Real.exp (-((l_d + l_r) * T))) / (l_d + l_r) := by
      funext T
      rw [show -((l_d + l_r) * T) = -(l_d + l_r) * T from (neg_mul _ _).symm]
      rfl
    rw [heq]
    simpa using h4

/-- C7 witness: the three properties at `l_d = 1`, `l_r = 2`. -/
theorem residence_time_coeff_spec_witness :
    residence_time_coeff 1 2 0 = 0
    ∧ StrictMono (fun T => residence_time_coeff 1 2 T)
    ∧ Filter.Tendsto (fun T => residence_time_coeff 1 2 T)
        Filter.atTop (nhds (1 / ((1 : ℝ) + 2))) :=
  ⟨(residence_time_coeff_spec 1 2 (by norm_num)).2.1,
   (residence_time_coeff_spec 1 2 (by norm_num)).2.2.1,
   (residence_time_coeff_spec 1 2 (by norm_num)).2.2.2⟩

/-! ## Claim C3 -/

/-- C3: `dispersion_coeff_y` returns `p_y * x ^ q_y` on `[0, 10000)`,
`p_y * 10000 ^ (q_y - 0.5) * sqrt x` on `[10000, 50000)`, fails exactly
when `x < 0` or `x ≥ 50000`, and the two branch formulas agree at
`x = 10000`, so the function is continuous there. -/
theorem dispersion_coeff_y_spec (p_y q_y x : ℝ) :
    (x < 0 → dispersion_coeff_y p_y q_y x
      = Except.error "distance could not be negative")
    ∧ (0 ≤ x → x < 10000 → dispersion_coeff_y p_y q_y x
      = Except.ok (p_y * x ^ q_y))
    ∧ (10000 ≤ x → x < 50000 → dispersion_coeff_y p_y q_y x
      = Except.ok (p_y * (10000 : ℝ) ^ (q_y - 0.5) * Real.sqrt x))
    ∧ (50000 ≤ x → dispersion_coeff_y p_y q_y x
      = Except.error "distance could not be larger than 50000 m")
    ∧ (∀ r : ℝ, dispersion_coeff_y p_y q_y x = Except.ok r →
      0 ≤ x ∧ x < 50000)
    ∧ p_y * (10000 : ℝ) ^ q_y
      = p_y * (10000 : ℝ) ^ (q_y - 0.5) * Real.sqrt 10000 := by
  refine ⟨?_, ?_, ?_, ?_, ?_, ?_⟩
  · intro h
    simp [dispersion_coeff_y, h]
  · intro h0 h1
    simp [dispersion_coeff_y, not_lt.mpr h0, h1]
  · intro h1 h2
    simp [dispersion_coeff_y,
      not_lt.mpr (le_trans (by norm_num : (0:ℝ) ≤ 10000) h1),
      not_lt.mpr h1, h2]
  · intro h
    simp [dispersion_coeff_y,
      not_lt.mpr (le_trans (by norm_num : (0:ℝ) ≤ 50000) h),
      not_lt.mpr (le_trans (by norm_num : (10000:ℝ) ≤ 50000) h),
      not_lt.mpr h]
  · intro r hr
    by_cases h0 : x < 0
    · simp [dispersion_coeff_y, h0] at hr
    · by_cases h1 : x < 10000
      · exact ⟨not_lt.mp h0, by linarith⟩
      · by_cases h2 : x < 50000
        · exact ⟨not_lt.mp h0, h2⟩
        · simp [dispersion_coeff_y, h0, h1, h2] at hr
  · have h100 : Real.sqrt (10000 : ℝ) = (10000 : ℝ) ^ ((1 : ℝ) / 2) :=
      Real.sqrt_eq_rpow 10000
    have hexp : q_y - 0.5 + 1 / 2 = q_y := by norm_num
    calc p_y * (10000 : ℝ) ^ q_y
        = p_y * (10000 : ℝ) ^ (q_y - 0.5 + 1 / 2) := by rw [hexp]
      _ = p_y * ((10000 : ℝ) ^ (q_y - 0.5) * (10000 : ℝ) ^ ((1 : ℝ) / 2)) := by
          rw [Real.rpow_add (by norm_num : (0:ℝ) < 10000)]
      _ = p_y * (10000 : ℝ) ^ (q_y - 0.5) * Real.sqrt 10000 := by
          rw [h100, mul_assoc]

/-- C3 witness: the four branches at concrete distances and the branch
agreement at `x = 10000` for `p_y = 1`, `q_y = 1`. -/
theorem dispersion_coeff_y_spec_witness :
    dispersion_coeff_y 1 1 (-1)
      = Except.error "distance could not be negative"
    ∧ dispersion_coeff_y 1 1 5000 = Except.ok (1 * (5000 : ℝ) ^ (1 : ℝ))
    ∧ dispersion_coeff_y 1 1 20000
      = Except.ok (1 * (10000 : ℝ) ^ ((1 : ℝ) - 0.5) * Real.sqrt 20000)
    ∧ dispersion_coeff_y 1 1 50000
      = Except.error "distance could not be larger than 50000 m"
    ∧ (1 : ℝ) * (10000 : ℝ) ^ (1 : ℝ)
      = 1 * (10000 : ℝ) ^ ((1 : ℝ) - 0.5) * Real.sqrt 10000 := by
  refine ⟨?_, ?_, ?_, ?_, ?_⟩
  · exact (dispersion_coeff_y_spec 1 1 (-1)).1 (by norm_num)
  · exact (dispersion_coeff_y_spec 1 1 5000).2.1 (by norm_num) (by norm_num)
  · exact (dispersion_coeff_y_spec 1 1 20000).2.2.1 (by norm_num)
      (by norm_num)
  · exact (dispersion_coeff_y_spec 1 1 50000).2.2.2.1 (by norm_num)
  · exact (dispersion_coeff_y_spec 1 1 0).2.2.2.2.2

/-! ## Claim C6 -/

/-- Folding max from a merged start value peels off the left operand. -/
lemma foldl_max_start (a b : ℚ) (ys : List ℚ) :
    ys.foldl max (max a b) = max a (ys.foldl max b) := by
  induction ys generalizing b with
  | nil => rfl
  | cons z zs ih =>
    rw [List.foldl_cons, List.foldl_cons, max_assoc, ih (max b z)]

/-- The Python max of a cons is the max of the head and the tail max. -/
lemma pymax_cons (x y : ℚ) (ys : List ℚ) :
    pymax (x :: y :: ys) = max x (pymax (y :: ys)) := by
  show (y :: ys).foldl max x = max x (ys.foldl max y)
  rw [List.foldl_cons]
  exact foldl_max_start x y ys

/-- Every list element is indexed, so `getD` inside the range yields a
member. -/
lemma getD_mem {xs : List ℚ} {j : ℕ} (h : j < xs.length) :
    xs.getD j 0 ∈ xs := by
  rw [List.getD_eq_getElem xs 0 h]
  exact List.getElem_mem h

/-- The rightmost argmax is inside the list. -/
lemma argmax_last_lt_length : ∀ {xs : List ℚ}, xs ≠ [] →
    argmax_last xs < xs.length
  | [], h => absurd rfl h
  | [_], _ => Nat.zero_lt_one
  | x :: y :: ys, _ => by
    rw [argmax_last]
    by_cases hx : x > pymax (y :: ys)
    · simp [hx]
    · simp only [hx, if_false]
      exact Nat.succ_lt_succ (argmax_last_lt_length (List.cons_ne_nil y ys))

/-- The rightmost argmax indexes a maximal element. -/
lemma getD_argmax_last : ∀ {xs : List ℚ}, xs ≠ [] →
    xs.getD (argmax_last xs) 0 = pymax xs
  | [], h => absurd rfl h
  | [_], _ => rfl
  | x :: y :: ys, _ => by
    rw [argmax_last, pymax_cons]
    by_cases hx : x > pymax (y :: ys)
    · simp [hx, max_eq_left (le_of_lt hx)]
    · simp only [hx, if_false, List.getD_cons_succ]
      rw [getD_argmax_last (List.cons_ne_nil y ys),
        max_eq_right (not_lt.mp hx)]

/-- No element strictly to the right of the rightmost argmax attains
the maximum. -/
lemma argmax_last_rightmost : ∀ {xs : List ℚ} (j : ℕ),
    argmax_last xs < j → j < xs.length → xs.getD j 0 ≠ pymax xs
  | [], j, _, hj, _ => by simp at hj
  | [_], j, hgt, hj, _ => by
    rw [argmax_last] at hgt
    simp only [List.length_cons, List.length_nil] at hj
    omega
  | x :: y :: ys, 0, hgt, _, _ => by
    rw [argmax_last] at hgt
    split at hgt <;> omega
  | x :: y :: ys, j + 1, hgt, hj, heq => by
    rw [argmax_last] at hgt
    rw [List.getD_cons_succ] at heq
    by_cases hx : x > pymax (y :: ys)
    · rw [pymax_cons, max_eq_left (le_of_lt hx)] at heq
      have hj2 : j < (y :: ys).length := by
        simp only [List.length_cons] at hj ⊢
        omega
      have hle : (y :: ys).getD j 0 ≤ pymax (y :: ys) :=
        le_pymax (getD_mem hj2)
      rw [heq] at hle
      exact absurd hx (not_lt.mpr hle)
    · simp only [hx, if_false] at hgt
      rw [pymax_cons, max_eq_right (not_lt.mp hx)] at heq
      have hj2 : j < (y :: ys).length := by
        simp only [List.length_cons] at hj ⊢
        omega
      exact argmax_last_rightmost j (by omega) hj2 heq

/-- C6: `food_max_distance` forms the per-distance class-maximum of the
nuclide-summed doses, picks the distance at the rightmost index
attaining the overall maximum, clips the result up to
`minimal_distance` (so every successful result is at least
`minimal_distance`), and raises shape-mismatch on a first- or
second-axis length mismatch. -/
theorem food_max_distance_spec (distances : List ℚ)
    (doses_matrix : List (List (List ℚ))) (minimal_distance : ℚ) :
    (doses_matrix.length ≠ distances.length →
      food_max_distance distances doses_matrix minimal_distance
        = Except.error "first matrix band should correspond to given distances set")
    ∧ (doses_matrix.length = distances.length →
      (∃ row ∈ doses_matrix, row.length ≠ 6) →
      food_max_distance distances doses_matrix minimal_distance
        = Except.error "second matrix band should correspond to atmospheric classes")
    ∧ (∀ r : ℚ, food_max_distance distances doses_matrix minimal_distance
        = Except.ok r → minimal_distance ≤ r)
    ∧ (doses_matrix.length = distances.length →
      (∀ row ∈ doses_matrix, row.length = 6) →
      distances ≠ [] →
      argmax_last (per_distance_doses doses_matrix) < distances.length
      ∧ food_max_distance distances doses_matrix minimal_distance
        = Except.ok (max minimal_distance
          (distances.getD (argmax_last (per_distance_doses doses_matrix)) 0))
      ∧ (per_distance_doses doses_matrix).getD
          (argmax_last (per_distance_doses doses_matrix)) 0
        = pymax (per_distance_doses doses_matrix)
      ∧ ∀ j, argmax_last (per_distance_doses doses_matrix) < j →
          j < (per_distance_doses doses_matrix).length →
          (per_distance_doses doses_matrix).getD j 0
            ≠ pymax (per_distance_doses doses_matrix)) := by
  refine ⟨?_, ?_, ?_, ?_⟩
  · intro h
    simp [food_max_distance, h]
  · intro hlen hrow
    simp [food_max_distance, hlen]
    rcases hrow with ⟨row, hmem, hne⟩
    exact ⟨row, hmem, by simpa [pasquill_gifford_classes] using hne⟩
  · intro r hr
    simp only [food_max_distance] at hr
    split at hr
    · simp at hr
    · split at hr
      · simp at hr
      · rw [Except.ok.injEq] at hr
        subst hr
        split
        · exact le_refl minimal_distance
        · next hcond => exact not_lt.mp hcond
  · intro hlen hrows hne
    have hmatne : doses_matrix ≠ [] := by
      intro h0
      rw [h0] at hlen
      exact hne (List.eq_nil_of_length_eq_zero hlen.symm)
    have hdosesne : per_distance_doses doses_matrix ≠ [] := by
      simpa [per_distance_doses] using hmatne
    have hlt : argmax_last (per_distance_doses doses_matrix)
        < distances.length := by
      have h1 := argmax_last_lt_length hdosesne
      rwa [per_distance_doses, List.length_map, hlen] at h1
    refine ⟨hlt, ?_, getD_argmax_last hdosesne,
      fun j h1 h2 => argmax_last_rightmost j h1 h2⟩
    have hval : (if distances.getD
          (argmax_last (per_distance_doses doses_matrix)) 0
          < minimal_distance then minimal_distance
        else distances.getD
          (argmax_last (per_distance_doses doses_matrix)) 0)
        = max minimal_distance (distances.getD
          (argmax_last (per_distance_doses doses_matrix)) 0) := by
      rcases lt_or_le (distances.getD
          (argmax_last (per_distance_doses doses_matrix)) 0)
          minimal_distance with hc | hc
      · rw [if_pos hc, max_eq_left (le_of_lt hc)]
      · rw [if_neg (not_lt.mpr hc), max_eq_right hc]
    unfold food_max_distance
    rw [if_neg (by simp [hlen]),
      if_neg (by simpa [pasquill_gifford_classes] using hrows)]
    exact congrArg Except.ok hval

/-- The spec end-to-end scenario matrix for `food_max_distance`. -/
def fmd_matrix : List (List (List ℚ)) :=
  [[[1, 2], [3, 4], [5, 6], [7, 8], [9, 10], [11, 12]],
   [[1, 2], [3, 4], [5, 6], [7, 8], [9, 50], [11, 12]]]

/-- C6 witness: the spec scenario returns `4`, and the two
shape-mismatch errors fire on concrete malformed inputs. -/
theorem food_max_distance_spec_witness :
    food_max_distance [3, 4] fmd_matrix 0 = Except.ok 4
    ∧ food_max_distance [3] fmd_matrix 0
      = Except.error "first matrix band should correspond to given distances set"
    ∧ food_max_distance [3] [[[1]]] 0
      = Except.error "second matrix band should correspond to atmospheric classes" := by
  refine ⟨?_, ?_, ?_⟩
  · have h := (food_max_distance_spec [3, 4] fmd_matrix 0).2.2.2 rfl
      (by
        intro row hrow
        rcases List.mem_cons.mp hrow with rfl | hrow
        · rfl
        rcases List.mem_cons.mp hrow with rfl | hrow
        · rfl
        cases hrow)
      (by simp)
    rw [h.2.1]
    norm_num [fmd_matrix, per_distance_doses, pymax, argmax_last, max_def]
  · exact (food_max_distance_spec [3] fmd_matrix 0).1 (by simp [fmd_matrix])
  · exact (food_max_distance_spec [3] [[[1]]] 0).2.1 rfl
      ⟨[[1]], by simp⟩

/-! ## Claim C2 -/

/-- Evaluation of the `uint16` store on a rational with known integral
bounds. -/
lemma to_uint16_eval (q : ℚ) (n : ℕ) (h1 : (n : ℚ) ≤ q)
    (h2 : q < n + 1) : to_uint16 q = n % 65536 := by
  unfold to_uint16
  have hfloor : ⌊q⌋ = (n : ℤ) := by
    rw [Int.floor_eq_iff]
    constructor
    · push_cast
      exact h1
    · push_cast
      exact h2
  rw [hfloor, Int.toNat_natCast]

/-- A recomputed raster factor never equals the factor it replaces. -/
lemma make_raster_factor_ne {f activity : ℚ} (hpos : 0 < activity)
    (hgt : f * activity > (max_raster_code : ℚ)) :
    make_raster_factor activity ≠ f := by
  intro heq
  unfold make_raster_factor at heq
  rw [← heq] at hgt
  have h2 : (max_raster_code : ℚ) / (2 * activity) * activity
      = (max_raster_code : ℚ) / 2 := by
    field_simp
    ring
  rw [h2] at hgt
  norm_num [max_raster_code] at hgt

/-- C2: the factor management of the painting loop.  On the first
contribution the raster factor becomes `M / (2 * activity)` and the
contribution code is added to the cell; on a later contribution with
`factor * activity > M` the factor is recomputed by the same formula,
every stored code is rescaled by `new_factor / old_factor` truncated to
`uint16`, and then the contribution code is added; otherwise the factor
is unchanged and the contribution code is simply added. -/
theorem apply_contribution_spec (amap : ActivityMap) (i j : ℕ)
    (activity : ℚ) :
    (amap.raster_factor = none →
      (apply_contribution amap i j activity).raster_factor
        = some ((max_raster_code : ℚ) / (2 * activity))
      ∧ (apply_contribution amap i j activity).data
        = set_cell amap.data i j
          (to_uint16 ((get_cell amap.data i j : ℚ)
            + (max_raster_code : ℚ) / (2 * activity) * activity)))
    ∧ (∀ f : ℚ, amap.raster_factor = some f → 0 < activity →
      f * activity > (max_raster_code : ℚ) →
      (apply_contribution amap i j activity).raster_factor
        = some ((max_raster_code : ℚ) / (2 * activity))
      ∧ (apply_contribution amap i j activity).data
        = set_cell
          (amap.data.map (fun row => row.map (fun (code : ℕ) =>
            to_uint16 ((code : ℚ) / f
              * ((max_raster_code : ℚ) / (2 * activity)))))) i j
          (to_uint16 ((get_cell
            (amap.data.map (fun row => row.map (fun (code : ℕ) =>
              to_uint16 ((code : ℚ) / f
                * ((max_raster_code : ℚ) / (2 * activity)))))) i j : ℚ)
            + (max_raster_code : ℚ) / (2 * activity) * activity)))
    ∧ (∀ f : ℚ, amap.raster_factor = some f →
      f * activity ≤ (max_raster_code : ℚ) →
      (apply_contribution amap i j activity).raster_factor = some f
      ∧ (apply_contribution amap i j activity).data
        = set_cell amap.data i j
          (to_uint16 ((get_cell amap.data i j : ℚ) + f * activity))) := by
  refine ⟨?_, ?_, ?_⟩
  · intro hnone
    simp only [apply_contribution, update_raster_factor, hnone,
      make_raster_factor]
    exact ⟨trivial, trivial⟩
  · intro f hsome hpos hgt
    have hne : (max_raster_code : ℚ) / (2 * activity) ≠ f :=
      make_raster_factor_ne hpos hgt
    simp only [apply_contribution, update_raster_factor, hsome,
      if_pos hgt, make_raster_factor, if_pos hne]
    exact ⟨trivial, trivial⟩
  · intro f hsome hle
    simp only [apply_contribution, update_raster_factor, hsome,
      if_neg (not_lt.mpr hle)]
    have hiff : ¬ (f ≠ f) := fun h => h rfl
    simp only [if_neg hiff]
    exact ⟨trivial, trivial⟩

/-- C2 witness: the three branches on a one-cell raster.  With factor
`65535/2` and stored code `32767`, a unit contribution keeps the factor
and stores `65534`; a contribution of `4` overflows, recomputing the
factor to `65535/8`, rescaling `32767` to `8191` and storing
`8191 + 32767.5` truncated to `40958`. -/
theorem apply_contribution_spec_witness :
    (apply_contribution
        ⟨10, 10, 1, 1, none, [[0]]⟩ 0 0 1).raster_factor
      = some ((max_raster_code : ℚ) / (2 * 1))
    ∧ (apply_contribution
        ⟨10, 10, 1, 1, some (65535/2), [[32767]]⟩ 0 0 1).raster_factor
      = some (65535/2)
    ∧ (apply_contribution
        ⟨10, 10, 1, 1, some (65535/2), [[32767]]⟩ 0 0 1).data = [[65534]]
    ∧ (apply_contribution
        ⟨10, 10, 1, 1, some (65535/2), [[32767]]⟩ 0 0 4).raster_factor
      = some ((max_raster_code : ℚ) / (2 * 4))
    ∧ (apply_contribution
        ⟨10, 10, 1, 1, some (65535/2), [[32767]]⟩ 0 0 4).data
      = [[40958]] := by
  have e1 := (apply_contribution_spec ⟨10, 10, 1, 1, none, [[0]]⟩ 0 0 1).1
    rfl
  have e2 := (apply_contribution_spec
    ⟨10, 10, 1, 1, some (65535/2), [[32767]]⟩ 0 0 1).2.2 (65535/2) rfl
    (by norm_num [max_raster_code])
  have e3 := (apply_contribution_spec
    ⟨10, 10, 1, 1, some (65535/2), [[32767]]⟩ 0 0 4).2.1 (65535/2) rfl
    (by norm_num) (by norm_num [max_raster_code])
  refine ⟨e1.1, e2.1, ?_, e3.1, ?_⟩
  · rw [e2.2]
    have hcell : (get_cell [[32767]] 0 0 : ℚ) = 32767 := by
      norm_num [get_cell]
    rw [hcell]
    rw [to_uint16_eval _ 65534 (by norm_num) (by norm_num)]
    rfl
  · rw [e3.2]
    have hmap : ([[32767]] : List (List ℕ)).map (fun row =>
        row.map (fun (code : ℕ) => to_uint16 ((code : ℚ) / (65535/2)
          * ((max_raster_code : ℚ) / (2 * 4))))) = [[8191]] := by
      simp only [List.map_cons, List.map_nil]
      rw [show ((32767 : ℕ) : ℚ) / (65535/2)
          * ((max_raster_code : ℚ) / (2 * 4)) = 32767/4 by
        norm_num [max_raster_code]]
      rw [to_uint16_eval _ 8191 (by norm_num) (by norm_num)]
    rw [hmap]
    have hcell : (get_cell [[8191]] 0 0 : ℚ) = 8191 := by
      norm_num [get_cell]
    rw [hcell]
    rw [show (8191 : ℚ) + (max_raster_code : ℚ) / (2 * 4) * 4
        = 81917/2 by norm_num [max_raster_code]]
    rw [to_uint16_eval _ 40958 (by norm_num) (by norm_num)]
    rfl

/-! ## Claim C8 -/

/-- Unfolding of one step of `__check_measurments`: location first,
then proximity, then the remaining measurements. -/
lemma check_measurements_cons (prox : ℚ) (basin : ABasin)
    (m : AMeasurement) (rest : List AMeasurement) :
    check_measurements prox basin (m :: rest)
      = if basin.contains m.coo then
          Except.error AMError.invalidMeasurementLocation
        else if basin.shoreline.any
            (fun seg => seg.dist m.coo ≤ prox) then
          check_measurements prox basin rest
        else Except.error AMError.exceedingMeasurementProximity := by
  cases hc : basin.contains m.coo <;>
    cases ha : basin.shoreline.any (fun seg => seg.dist m.coo ≤ prox) <;>
    simp [check_measurements, check_measurement_location,
      check_measurement_proximity, hc, ha]

/-- `__check_measurments` succeeds exactly when every measurement is
outside the body and proximate to some shoreline segment. -/
lemma check_measurements_ok_iff (prox : ℚ) (basin : ABasin)
    (ms : List AMeasurement) :
    check_measurements prox basin ms = Except.ok () ↔
    ∀ m ∈ ms, basin.contains m.coo = false
      ∧ basin.shoreline.any (fun seg => seg.dist m.coo ≤ prox) = true := by
  induction ms with
  | nil => simp [check_measurements]
  | cons m rest ih =>
    rw [check_measurements_cons]
    cases hc : basin.contains m.coo
    · cases ha : basin.shoreline.any (fun seg => seg.dist m.coo ≤ prox)
      · rw [if_neg (by simp), if_neg (by simp)]
        constructor
        · intro h
          exact absurd h (by simp)
        · intro hall
          rcases hall m (List.mem_cons_self m rest) with ⟨_, ha2⟩
          rw [ha2] at ha
          cases ha
      · rw [if_neg (by simp), if_pos rfl, ih]
        constructor
        · intro hrest m2 hm2
          rcases List.mem_cons.mp hm2 with rfl | hm2
          · exact ⟨hc, ha⟩
          · exact hrest m2 hm2
        · intro hall m2 hm2
          exact hall m2 (List.mem_cons_of_mem m hm2)
    · rw [if_pos rfl]
      constructor
      · intro h
        exact absurd h (by simp)
      · intro hall
        rcases hall m (List.mem_cons_self m rest) with ⟨hc2, _⟩
        rw [hc2] at hc
        cases hc

/-- `__check_measurments` raises only its two own errors. -/
lemma check_measurements_error_mem (prox : ℚ) (basin : ABasin) :
    ∀ (ms : List AMeasurement) (e : AMError),
    check_measurements prox basin ms = Except.error e →
    e = AMError.invalidMeasurementLocation
      ∨ e = AMError.exceedingMeasurementProximity
  | [], e, h => by simp [check_measurements] at h
  | m :: rest, e, h => by
    rw [check_measurements_cons] at h
    by_cases hc : basin.contains m.coo = true
    · rw [if_pos hc] at h
      exact Or.inl (Except.error.inj h).symm
    · rw [if_neg hc] at h
      by_cases ha : basin.shoreline.any
          (fun seg => seg.dist m.coo ≤ prox) = true
      · rw [if_pos ha] at h
        exact check_measurements_error_mem prox basin rest e h
      · rw [if_neg ha] at h
        exact Or.inr (Except.error.inj h).symm

/-- A failing measurement forces `__check_measurments` to raise. -/
lemma check_measurements_error_exists (prox : ℚ) (basin : ABasin)
    (ms : List AMeasurement)
    (h : ∃ m ∈ ms, basin.contains m.coo = true
      ∨ basin.shoreline.any (fun seg => seg.dist m.coo ≤ prox) = false) :
    ∃ e, check_measurements prox basin ms = Except.error e := by
  cases hres : check_measurements prox basin ms with
  | error e => exact ⟨e, rfl⟩
  | ok u =>
    cases u
    exfalso
    rcases h with ⟨m, hm, hfail⟩
    rcases (check_measurements_ok_iff prox basin ms).mp hres m hm
      with ⟨hc, ha⟩
    rcases hfail with hfail | hfail
    · rw [hc] at hfail
      cases hfail
    · rw [ha] at hfail
      cases hfail

/-- Measurements that pass both checks are skipped over. -/
lemma check_measurements_append (prox : ℚ) (basin : ABasin)
    (rest : List AMeasurement) :
    ∀ pre : List AMeasurement,
    (∀ m2 ∈ pre, basin.contains m2.coo = false
      ∧ basin.shoreline.any (fun seg => seg.dist m2.coo ≤ prox) = true) →
    check_measurements prox basin (pre ++ rest)
      = check_measurements prox basin rest
  | [], _ => rfl
  | p :: pre, hpre => by
    rw [List.cons_append, check_measurements_cons]
    rcases hpre p (List.mem_cons_self p pre) with ⟨hc, ha⟩
    rw [if_neg (by simp [hc]), if_pos ha]
    exact check_measurements_append prox basin rest pre
      (fun m2 hm => hpre m2 (List.mem_cons_of_mem p hm))

/-- An empty list is the only one whose `isEmpty` is `true`. -/
lemma isEmpty_eq_false_of_ne_nil {α : Type} {l : List α} (h : l ≠ []) :
    l.isEmpty = false := by
  cases l with
  | nil => exact absurd rfl h
  | cons a t => rfl

/-- `add_basin` raises exactly the errors of the measurement checks,
raised before any painting. -/
lemma add_basin_error_iff (amap : ActivityMap) (basin : ABasin)
    (ms : List AMeasurement) (e : AMError) :
    add_basin amap basin ms = Except.error e ↔
    ms.isEmpty = false
      ∧ check_measurements amap.measurement_proximity basin ms
        = Except.error e := by
  unfold add_basin
  cases hemp : ms.isEmpty
  · cases hchk : check_measurements amap.measurement_proximity basin ms with
    | error e2 => simp [hchk]
    | ok u =>
      cases u
      simp only [hchk, Bool.false_eq_true, if_false]
      split <;> simp
  · simp [hemp]

/-- C8 (amended): `add_basin` with a non-empty measurement list
validates the measurements in order, the location check before the
proximity check for each measurement, before any raster write; the
first failing check determines the error.  Some measurement strictly
inside the body, or some measurement too far from every shoreline
segment, forces an error; every raised error is one of the two check
errors and comes out of the check phase, so the raster and the raster
factor are untouched. -/
theorem add_basin_validation_spec (amap : ActivityMap) (basin : ABasin)
    (ms : List AMeasurement) :
    (∀ e, add_basin amap basin ms = Except.error e →
      check_measurements amap.measurement_proximity basin ms
        = Except.error e
      ∧ (e = AMError.invalidMeasurementLocation
        ∨ e = AMError.exceedingMeasurementProximity))
    ∧ ((∃ m ∈ ms, basin.contains m.coo = true) →
      ∃ e, add_basin amap basin ms = Except.error e)
    ∧ ((∃ m ∈ ms, ∀ seg ∈ basin.shoreline,
        ¬ seg.dist m.coo ≤ amap.measurement_proximity) →
      ∃ e, add_basin amap basin ms = Except.error e)
    ∧ (∀ pre m post, ms = pre ++ m :: post →
      (∀ m2 ∈ pre, basin.contains m2.coo = false
        ∧ basin.shoreline.any
          (fun seg => seg.dist m2.coo ≤ amap.measurement_proximity)
          = true) →
      (basin.contains m.coo = true →
        add_basin amap basin ms
          = Except.error AMError.invalidMeasurementLocation)
      ∧ (basin.contains m.coo = false →
        basin.shoreline.any
          (fun seg => seg.dist m.coo ≤ amap.measurement_proximity)
          = false →
        add_basin amap basin ms
          = Except.error AMError.exceedingMeasurementProximity)) := by
  refine ⟨?_, ?_, ?_, ?_⟩
  · intro e h
    rcases (add_basin_error_iff amap basin ms e).mp h with ⟨_, hchk⟩
    exact ⟨hchk, check_measurements_error_mem _ basin ms e hchk⟩
  · rintro ⟨m, hm, hc⟩
    obtain ⟨e, he⟩ := check_measurements_error_exists
      amap.measurement_proximity basin ms ⟨m, hm, Or.inl hc⟩
    exact ⟨e, (add_basin_error_iff amap basin ms e).mpr
      ⟨isEmpty_eq_false_of_ne_nil (List.ne_nil_of_mem hm), he⟩⟩
  · rintro ⟨m, hm, hfar⟩
    have ha : basin.shoreline.any
        (fun seg => seg.dist m.coo ≤ amap.measurement_proximity)
        = false := by
      rw [List.any_eq_false]
      intro seg hseg
      simpa using hfar seg hseg
    obtain ⟨e, he⟩ := check_measurements_error_exists
      amap.measurement_proximity basin ms ⟨m, hm, Or.inr ha⟩
    exact ⟨e, (add_basin_error_iff amap basin ms e).mpr
      ⟨isEmpty_eq_false_of_ne_nil (List.ne_nil_of_mem hm), he⟩⟩
  · intro pre m post hsplit hpre
    subst hsplit
    have hne : pre ++ m :: post ≠ [] := by
      intro h0
      exact absurd (List.append_eq_nil.mp h0).2 (List.cons_ne_nil m post)
    constructor
    · intro hc
      refine (add_basin_error_iff amap basin _ _).mpr
        ⟨isEmpty_eq_false_of_ne_nil hne, ?_⟩
      rw [check_measurements_append amap.measurement_proximity basin
        (m :: post) pre hpre, check_measurements_cons, if_pos hc]
    · intro hc ha
      refine (add_basin_error_iff amap basin _ _).mpr
        ⟨isEmpty_eq_false_of_ne_nil hne, ?_⟩
      rw [check_measurements_append amap.measurement_proximity basin
        (m :: post) pre hpre, check_measurements_cons,
        if_neg (by simp [hc]), if_neg (by simp [ha])]

/-- A basin whose body contains exactly the point `(1, 1)` and whose
single shoreline segment is at distance `100` from the point `(9, 9)`
and at distance `0` from every other point. -/
def c8_basin : ABasin :=
  { contains := fun p => decide (p = ((1 : ℚ), (1 : ℚ))),
    shoreline := [{ area := fun _ _ => 1,
                    dist := fun p =>
                      if p = ((9 : ℚ), (9 : ℚ)) then 100 else 0 }] }

/-- A measurement outside the body but farther than the proximity bound
from every shoreline segment. -/
def c8_far : AMeasurement := { coo := (9, 9), surface_1cm := 1 }

/-- A measurement strictly inside the basin body. -/
def c8_inside : AMeasurement := { coo := (1, 1), surface_1cm := 1 }

/-- A one-cell activity map with proximity bound `10`. -/
def c8_amap : ActivityMap :=
  { measurement_proximity := 10, contamination_depth := 10,
    width := 1, height := 1, raster_factor := none, data := [[0]] }

/-- C8 counterexample: with the far measurement listed first and a
measurement strictly inside the body listed second, `add_basin` raises
exceeding-measurement-proximity, not the invalid-measurement-location
error the claim promises for a list containing an inside measurement. -/
theorem add_basin_error_order_counterexample :
    c8_basin.contains c8_inside.coo = true
    ∧ (∀ seg ∈ c8_basin.shoreline,
      ¬ seg.dist c8_far.coo ≤ c8_amap.measurement_proximity)
    ∧ add_basin c8_amap c8_basin [c8_far, c8_inside]
      = Except.error AMError.exceedingMeasurementProximity
    ∧ add_basin c8_amap c8_basin [c8_far, c8_inside]
      ≠ Except.error AMError.invalidMeasurementLocation := by
  have hc : c8_basin.contains c8_inside.coo = true := by
    simp [c8_basin, c8_inside]
  have hfar : ∀ seg ∈ c8_basin.shoreline,
      ¬ seg.dist c8_far.coo ≤ c8_amap.measurement_proximity := by
    intro seg hseg
    rcases List.mem_cons.mp hseg with rfl | h0
    · simp [c8_far, c8_amap]
      norm_num
    · cases h0
  have hrun : add_basin c8_amap c8_basin [c8_far, c8_inside]
      = Except.error AMError.exceedingMeasurementProximity := by
    rw [add_basin_error_iff]
    refine ⟨rfl, ?_⟩
    rw [check_measurements_cons]
    rw [if_neg (by simp [c8_basin, c8_far])]
    rw [if_neg ?_]
    simp only [List.any_eq_true, not_exists]
    intro seg hseg
    exact absurd (of_decide_eq_true hseg.2) (hfar seg hseg.1)
  refine ⟨hc, hfar, hrun, ?_⟩
  rw [hrun]
  simp

/-- C8 witness: a lone inside measurement raises
invalid-measurement-location; a lone far measurement raises
exceeding-measurement-proximity. -/
theorem add_basin_validation_spec_witness :
    add_basin c8_amap c8_basin [c8_inside]
      = Except.error AMError.invalidMeasurementLocation
    ∧ add_basin c8_amap c8_basin [c8_far]
      = Except.error AMError.exceedingMeasurementProximity := by
  constructor
  · exact ((add_basin_validation_spec c8_amap c8_basin [c8_inside]).2.2.2
      [] c8_inside [] rfl (by intro m2 hm2; cases hm2)).1
      (by simp [c8_basin, c8_inside])
  · exact ((add_basin_validation_spec c8_amap c8_basin [c8_far]).2.2.2
      [] c8_far [] rfl (by intro m2 hm2; cases hm2)).2
      (by simp [c8_basin, c8_far])
      (by
        rw [List.any_eq_false]
        intro seg hseg
        rcases List.mem_cons.mp hseg with rfl | h0
        · simp [c8_far, c8_amap]
          norm_num
        · cases h0)

/-! ## Claim C1 -/

/-- A basin whose single shoreline segment overlaps the one raster cell
with intersection area `1` and whose body contains no point. -/
def c1_basin : ABasin :=
  { contains := fun _ => false,
    shoreline := [{ area := fun _ _ => 1, dist := fun _ => 0 }] }

/-- A measurement with `surface_1cm = 1/10`, so that with contamination
depth `10` the averaged surface activity is exactly `1`. -/
def c1_measurement : AMeasurement := { coo := (0, 0), surface_1cm := 1/10 }

/-- The initial one-cell activity map. -/
def c1_map0 : ActivityMap :=
  { measurement_proximity := 10, contamination_depth := 10,
    width := 1, height := 1, raster_factor := none, data := [[0]] }

/-- The one-element index range of the painting loop. -/
lemma range_one_eq : List.range 1 = [0] := by
  rw [List.range_succ, List.range_zero, List.nil_append]

/-- Painting `c1_basin` once is exactly one unit contribution to cell
`(0, 0)`. -/
lemma add_basin_c1_run (rf : Option ℚ) (d : List (List ℕ)) :
    add_basin ⟨10, 10, 1, 1, rf, d⟩ c1_basin [c1_measurement]
      = Except.ok (apply_contribution ⟨10, 10, 1, 1, rf, d⟩ 0 0 1) := by
  have hchk : check_measurements (10 : ℚ) c1_basin [c1_measurement]
      = Except.ok () := by
    rw [check_measurements_ok_iff]
    intro m hm
    rcases List.mem_cons.mp hm with rfl | h0
    · refine ⟨rfl, ?_⟩
      simp [c1_basin]
    · cases h0
  have havg : average_surface_activity (10 : ℚ) [c1_measurement] = 1 := by
    norm_num [average_surface_activity, c1_measurement]
  unfold add_basin
  rw [if_neg (by simp)]
  dsimp only
  rw [hchk, havg]
  rw [if_neg one_ne_zero]
  unfold paint_segment
  dsimp only [c1_basin, List.foldl_cons, List.foldl_nil]
  simp only [range_one_eq, List.foldl_cons, List.foldl_nil]
  rw [if_neg one_ne_zero, one_mul]

/-- First contribution: the factor becomes `65535/2` and the cell code
`to_uint16(65535/2) = 32767`. -/
lemma c1_step1 : apply_contribution ⟨10, 10, 1, 1, none, [[0]]⟩ 0 0 1
    = ⟨10, 10, 1, 1, some (65535/2), [[32767]]⟩ := by
  unfold apply_contribution update_raster_factor make_raster_factor
  dsimp only
  simp only [ActivityMap.mk.injEq]
  refine ⟨trivial, trivial, trivial, trivial, ?_, ?_⟩
  · norm_num [max_raster_code]
  · have h2 : to_uint16 ((get_cell [[0]] 0 0 : ℚ)
        + (max_raster_code : ℚ) / (2 * 1) * 1) = 32767 := by
      rw [show ((get_cell [[0]] 0 0 : ℕ) : ℚ)
          + (max_raster_code : ℚ) / (2 * 1) * 1 = 65535/2 by
        norm_num [get_cell, max_raster_code]]
      rw [to_uint16_eval _ 32767 (by norm_num) (by norm_num)]
    rw [h2]
    rfl

/-- Second contribution: no overflow, the factor stays and the cell
code becomes `to_uint16(32767 + 65535/2) = 65534`. -/
lemma c1_step2 : apply_contribution
      ⟨10, 10, 1, 1, some (65535/2), [[32767]]⟩ 0 0 1
    = ⟨10, 10, 1, 1, some (65535/2), [[65534]]⟩ := by
  unfold apply_contribution update_raster_factor make_raster_factor
  dsimp only
  rw [if_neg (by norm_num [max_raster_code])]
  rw [if_neg (fun h => h rfl)]
  simp only [ActivityMap.mk.injEq]
  refine ⟨trivial, trivial, trivial, trivial, trivial, ?_⟩
  have h2 : to_uint16 ((get_cell [[32767]] 0 0 : ℚ) + 65535/2 * 1)
      = 65534 := by
    rw [show ((get_cell [[32767]] 0 0 : ℕ) : ℚ) + 65535/2 * 1
        = 131069/2 by norm_num [get_cell]]
    rw [to_uint16_eval _ 65534 (by norm_num) (by norm_num)]
  rw [h2]
  rfl

/-- Third contribution: the per-contribution overflow check still
passes (`65535/2 * 1 ≤ 65535`), but the accumulated cell value
`65534 + 32767.5` exceeds the `uint16` range and wraps:
`⌊98301.5⌋ mod 2^16 = 32765`. -/
lemma c1_step3 : apply_contribution
      ⟨10, 10, 1, 1, some (65535/2), [[65534]]⟩ 0 0 1
    = ⟨10, 10, 1, 1, some (65535/2), [[32765]]⟩ := by
  unfold apply_contribution update_raster_factor make_raster_factor
  dsimp only
  rw [if_neg (by norm_num [max_raster_code])]
  rw [if_neg (fun h => h rfl)]
  simp only [ActivityMap.mk.injEq]
  refine ⟨trivial, trivial, trivial, trivial, trivial, ?_⟩
  have h2 : to_uint16 ((get_cell [[65534]] 0 0 : ℚ) + 65535/2 * 1)
      = 32765 := by
    rw [show ((get_cell [[65534]] 0 0 : ℕ) : ℚ) + 65535/2 * 1
        = 196603/2 by norm_num [get_cell]]
    rw [to_uint16_eval _ 98301 (by norm_num) (by norm_num)]
  rw [h2]
  rfl

/-- C1: after three `add_basin` calls, each contributing surface
activity `1` over intersection area `1` to the single cell, the stored
code has wrapped around: the raster factor is `65535/2` and the cell
code is `32765`, so `code / raster_factor` is below `1.1` although the
accumulated physical contribution is `3`; the error exceeds `1`, far
beyond uint16 quantization (`2/65535` per write).  This contradicts the
claimed invariant that `code / raster_factor` tracks the sum of
contributions, which the comment in the source
(`activity * raster_factor = raster code of activity`) promises to
maintain. -/
theorem activity_raster_overflow_bug :
    add_basin c1_map0 c1_basin [c1_measurement]
      = Except.ok ⟨10, 10, 1, 1, some (65535/2), [[32767]]⟩
    ∧ add_basin ⟨10, 10, 1, 1, some (65535/2), [[32767]]⟩ c1_basin
        [c1_measurement]
      = Except.ok ⟨10, 10, 1, 1, some (65535/2), [[65534]]⟩
    ∧ add_basin ⟨10, 10, 1, 1, some (65535/2), [[65534]]⟩ c1_basin
        [c1_measurement]
      = Except.ok ⟨10, 10, 1, 1, some (65535/2), [[32765]]⟩
    ∧ (1 + 1 + 1 : ℚ) - (get_cell [[32765]] 0 0 : ℚ) / (65535/2) > 1 := by
  refine ⟨?_, ?_, ?_, ?_⟩
  · exact (add_basin_c1_run none [[0]]).trans (congrArg Except.ok c1_step1)
  · exact (add_basin_c1_run (some (65535/2)) [[32767]]).trans
      (congrArg Except.ok c1_step2)
  · exact (add_basin_c1_run (some (65535/2)) [[65534]]).trans
      (congrArg Except.ok c1_step3)
  · norm_num [get_cell]
